import Mathlib

/-!
# Verification of the TicketJam ingestion and tracking engine

A shallow embedding of the core of `ticketjam.py` (the `TicketInfo` data
class, the `TicketDatabase` tracking store, and the scrape-cycle
orchestrator `scrape_and_update_database`), together with proofs about the
behaviours described in the specification.

Modelling conventions:
* The SQLite store is modelled as an explicit state value (`TicketDatabase`)
  holding the `tickets` table and the `price_history` table as lists in
  row-insertion order; SQL `UPDATE/DELETE ... WHERE` becomes `List.map` /
  `List.filter` over the rows.
* `datetime.now().isoformat()` and SQLite's `CURRENT_TIMESTAMP` are modelled
  by an explicit `now : String` parameter threaded into each operation.
* Python string truthiness (`if s:`) is modelled as `s ≠ ""`; Python list
  truthiness as non-emptiness.
* Python's `int(...)` conversion used on price strings is modelled by
  `pyInt`: strip surrounding whitespace, optional sign, then decimal digits
  (the only shapes price strings take in this program).
* Functions that print an error to stderr and return an empty result are
  modelled as returning `Except.error` carrying the error message.
-/

namespace ShogaSuto

/-- Embeds the `TicketInfo` dataclass of `ticketjam.py` (extraction-side
candidate record).  Field defaults mirror the dataclass defaults. -/
structure TicketInfo where
  title : String := ""
  event_name : String := ""
  date : String := ""
  time : String := ""
  venue : String := ""
  location : String := ""
  price : String := ""
  quantity : String := ""
  seat_info : String := ""
  description : String := ""
  days_remaining : String := ""
  is_instant_buy : Bool := false
  url : String := ""
  ticket_id : String := ""
  first_seen : String := ""
  last_seen : String := ""
  status : String := "active"
  deriving Repr, DecidableEq

/-- One row of the `tickets` table (schema from `init_database`), including
the `posted`, `created_at`, `updated_at` audit columns. -/
structure TicketRow where
  ticket_id : String
  title : String
  event_name : String
  date : String
  time : String
  venue : String
  location : String
  price : String
  quantity : String
  seat_info : String
  description : String
  days_remaining : String
  is_instant_buy : Bool
  url : String
  first_seen : String
  last_seen : String
  status : String
  posted : Bool
  created_at : String
  updated_at : String
  deriving Repr, DecidableEq

/-- One row of the `price_history` table. -/
structure PriceHistoryRow where
  ticket_id : String
  price : String
  recorded_at : String
  deriving Repr, DecidableEq

/-- The persistent store owned by `TicketDatabase`: both tables, rows kept
in insertion order. -/
structure TicketDatabase where
  tickets : List TicketRow
  price_history : List PriceHistoryRow
  deriving Repr, DecidableEq

/-- Python string split on the slash character, over a character list:
splits at every slash, keeping empty segments (splitting the empty string
gives one empty segment, as in Python). -/
def splitChar : List Char → List (List Char)
  | [] => [[]]
  | c :: rest =>
    if c = '/' then [] :: splitChar rest
    else
      match splitChar rest with
      | [] => [[c]]
      | h :: t => (c :: h) :: t

/-- The body of `TicketInfo.generate_ticket_id`:
`url.rstrip('/').split('/')` and take the last part, falling back to the
full URL if the split were empty (unreachable, kept for fidelity). -/
def lastUrlSegment (url : String) : String :=
  let stripped := (url.toList.reverse.dropWhile (fun c => c == '/')).reverse
  match (splitChar stripped).getLast? with
  | some seg => String.mk seg
  | none => url

/-- Embeds `TicketInfo.generate_ticket_id`: only acts when `ticket_id` is
still empty and `url` is non-empty (Python truthiness of both strings). -/
def TicketInfo.generateTicketId (t : TicketInfo) : TicketInfo :=
  if t.ticket_id = "" ∧ t.url ≠ "" then
    { t with ticket_id := lastUrlSegment t.url }
  else t

/-- The ticket id that extraction assigns to a fresh candidate
(`ticket_id = ""` initially) whose resolved URL is `u`. -/
def ticketIdFromUrl (u : String) : String :=
  (TicketInfo.generateTicketId { url := u }).ticket_id

/-- Embeds `TicketJamScraper._is_valid_ticket`:
`bool(ticket.price and (ticket.event_name or ticket.description))`. -/
def _is_valid_ticket (t : TicketInfo) : Bool :=
  !(t.price == "") && (!(t.event_name == "") || !(t.description == ""))

/-- The validation pass of `scrape_tickets`: keep exactly the extracted
candidates accepted by `_is_valid_ticket`. -/
def filterValid (ts : List TicketInfo) : List TicketInfo :=
  ts.filter _is_valid_ticket

/-- The deduplication loop of `scrape_tickets`: walk candidates in document
order, keeping a ticket only if its `ticket_id` has not been seen yet. -/
def dedupAux : List TicketInfo → List String → List TicketInfo
  | [], _ => []
  | t :: rest, seen =>
    if seen.contains t.ticket_id then dedupAux rest seen
    else t :: dedupAux rest (t.ticket_id :: seen)

/-- The duplicate removal of `scrape_tickets`, starting from an empty seen set. -/
def dedupTickets (ts : List TicketInfo) : List TicketInfo :=
  dedupAux ts []

/-- The row INSERTed for a new ticket in `insert_or_update_ticket`:
`first_seen = last_seen = now`, `posted = 0`, audit columns defaulted to
`CURRENT_TIMESTAMP` (modelled as `now`). -/
def rowFromTicket (t : TicketInfo) (now : String) : TicketRow where
  ticket_id := t.ticket_id
  title := t.title
  event_name := t.event_name
  date := t.date
  time := t.time
  venue := t.venue
  location := t.location
  price := t.price
  quantity := t.quantity
  seat_info := t.seat_info
  description := t.description
  days_remaining := t.days_remaining
  is_instant_buy := t.is_instant_buy
  url := t.url
  first_seen := now
  last_seen := now
  status := t.status
  posted := false
  created_at := now
  updated_at := now

/-- The UPDATE statements of `insert_or_update_ticket` applied to one row:
both branches overwrite every mutable column from the candidate and bump
`last_seen` and `updated_at`; the price-changed branch additionally sets
`posted = 0`, the unchanged branch leaves `posted` alone. -/
def updateRowFromTicket (r : TicketRow) (t : TicketInfo) (now : String)
    (price_changed : Bool) : TicketRow :=
  { r with
    title := t.title
    event_name := t.event_name
    date := t.date
    time := t.time
    venue := t.venue
    location := t.location
    price := t.price
    quantity := t.quantity
    seat_info := t.seat_info
    description := t.description
    days_remaining := t.days_remaining
    is_instant_buy := t.is_instant_buy
    url := t.url
    last_seen := now
    status := t.status
    posted := if price_changed then false else r.posted
    updated_at := now }

/-- Embeds `TicketDatabase.insert_or_update_ticket`.  Returns the new store
state together with the Python return value `(is_new, action)`. -/
def insert_or_update_ticket (db : TicketDatabase) (t : TicketInfo)
    (now : String) : TicketDatabase × Bool × String :=
  match db.tickets.find? (fun r => r.ticket_id == t.ticket_id) with
  | some existing =>
    let price_changed := existing.price != t.price
    let hist :=
      if price_changed then
        db.price_history ++ [⟨t.ticket_id, t.price, now⟩]
      else db.price_history
    let action :=
      if price_changed then
        "Price changed from " ++ existing.price ++ " to " ++ t.price
      else "Updated last_seen"
    let tickets := db.tickets.map (fun r =>
      if r.ticket_id == t.ticket_id then updateRowFromTicket r t now price_changed
      else r)
    (⟨tickets, hist⟩, false, action)
  | none =>
    (⟨db.tickets ++ [rowFromTicket t now],
      db.price_history ++ [⟨t.ticket_id, t.price, now⟩]⟩,
     true, "New ticket added")

/-- Embeds `TicketDatabase.delete_removed_tickets`: with a non-empty id
list, the SQL DELETE removes the active rows whose id is not in the list;
with an empty list, it deletes every active row.  Returns the new state
and the deleted-row count (`cursor.rowcount`). -/
def delete_removed_tickets (db : TicketDatabase)
    (current_ticket_ids : List String) : TicketDatabase × Nat :=
  let keep :=
    if current_ticket_ids.isEmpty then
      db.tickets.filter (fun r => !(r.status == "active"))
    else
      db.tickets.filter
        (fun r => !(r.status == "active" && !(current_ticket_ids.contains r.ticket_id)))
  (⟨keep, db.price_history⟩, db.tickets.length - keep.length)

/-- Embeds `TicketDatabase.get_unposted_tickets`.  An invalid status filter
is reported (stderr message, no query executed) — modelled as
`Except.error` with the printed message; otherwise the rows with
`posted = 0`, optionally restricted to the one status. -/
def get_unposted_tickets (db : TicketDatabase) (status_filter : Option String) :
    Except String (List TicketRow) :=
  match status_filter with
  | some f =>
    if ¬(f = "active" ∨ f = "sold") then
      Except.error ("Invalid status filter: " ++ f)
    else
      Except.ok (db.tickets.filter (fun r => !r.posted && r.status == f))
  | none =>
    Except.ok (db.tickets.filter (fun r => !r.posted))

/-- Embeds `TicketDatabase.mark_tickets_as_posted`: `UPDATE tickets SET
posted = 1, updated_at = CURRENT_TIMESTAMP WHERE ticket_id IN (...)`.
Returns the new state and the matched-row count. -/
def mark_tickets_as_posted (db : TicketDatabase) (ticket_ids : List String)
    (now : String) : TicketDatabase × Nat :=
  (⟨db.tickets.map (fun r =>
      if ticket_ids.contains r.ticket_id then
        { r with posted := true, updated_at := now }
      else r),
    db.price_history⟩,
   (db.tickets.filter (fun r => ticket_ids.contains r.ticket_id)).length)

/-- The stripping step of `format_price_change_info`: Python replaces the
comma and the currency character each by the empty string, i.e. deletes
those two characters. -/
def stripPriceChars (s : String) : String :=
  String.mk (s.toList.filter (fun c => !(c == ',' || c == '円')))

/-- Decimal digits to a natural number. -/
def digitsToNat (ds : List Char) : Nat :=
  ds.foldl (fun n c => 10 * n + (c.toNat - '0'.toNat)) 0

/-- Model of Python `int(str)` as used on stripped price strings: strip
surrounding whitespace, allow one optional sign, then require at least one
decimal digit; anything else raises `ValueError` (here: `none`). -/
def pyInt (s : String) : Option Int :=
  let cs := ((s.toList.dropWhile Char.isWhitespace).reverse.dropWhile
    Char.isWhitespace).reverse
  match cs with
  | [] => none
  | '-' :: ds =>
    if ds ≠ [] ∧ ds.all Char.isDigit then some (-(digitsToNat ds : Int)) else none
  | '+' :: ds =>
    if ds ≠ [] ∧ ds.all Char.isDigit then some ((digitsToNat ds : Int)) else none
  | ds =>
    if ds.all Char.isDigit then some ((digitsToNat ds : Int)) else none

/-- Split a reversed digit list into groups of three (for thousands
separators). -/
def chunk3 : List Char → List (List Char)
  | [] => []
  | [a] => [[a]]
  | [a, b] => [[a, b]]
  | a :: b :: c :: rest => [a, b, c] :: chunk3 rest

/-- Python's thousands-separated integer formatting `f"{n:,}"` for a
non-negative value. -/
def commaFmt (n : Nat) : String :=
  String.mk ((((chunk3 (Nat.repr n).toList.reverse).intersperse [',']).flatten).reverse)

/-- Embeds `TicketDatabase.format_price_change_info`.  The price history is
modelled as the list of recorded prices in `recorded_at` order. -/
def format_price_change_info (current_price : String)
    (price_history : List String) : String :=
  if price_history.length ≤ 1 then current_price
  else
    let previous_price := price_history.getD (price_history.length - 2) ""
    if previous_price = current_price then current_price
    else
      match pyInt (stripPriceChars current_price),
            pyInt (stripPriceChars previous_price) with
      | some current_val, some previous_val =>
        if current_val > previous_val then
          current_price ++ " 📈 (+" ++ commaFmt (current_val - previous_val).toNat
            ++ "円)\n~~" ++ previous_price ++ "~~"
        else
          current_price ++ " 📉 (-" ++ commaFmt (previous_val - current_val).toNat
            ++ "円)\n~~" ++ previous_price ++ "~~"
      | _, _ => current_price ++ "\n前回: " ++ previous_price

/-- The colour-hint computation of `get_ticket_with_price_info`: the string
`default` (the `unchanged`-equivalent direction), `increase` or `decrease`;
any parse failure leaves it at `default`. -/
def price_color_hint (current_price : String)
    (price_history : List String) : String :=
  if price_history.length > 1 then
    match pyInt (stripPriceChars current_price),
          pyInt (stripPriceChars (price_history.getD (price_history.length - 2) "")) with
    | some current_val, some previous_val =>
      if current_val > previous_val then "increase"
      else if current_val < previous_val then "decrease"
      else "default"
    | _, _ => "default"
  else "default"

/-- The spec's `formatPriceChange(currentPrice, history) ->
(displayString, direction)`: the display string from
`format_price_change_info` paired with the direction from
the colour hint of `get_ticket_with_price_info`. -/
def formatPriceChange (current_price : String) (price_history : List String) :
    String × String :=
  (format_price_change_info current_price price_history,
   price_color_hint current_price price_history)

/-- The spec's upsert action enumeration. -/
inductive UpsertAction where
  | Inserted
  | PriceChanged
  | Touched
  deriving Repr, DecidableEq

/-- Classify the action string returned by `insert_or_update_ticket` as the
spec's `Inserted / PriceChanged / Touched` enumeration. -/
def actionKind (action : String) : UpsertAction :=
  if action = "New ticket added" then UpsertAction.Inserted
  else if action = "Updated last_seen" then UpsertAction.Touched
  else UpsertAction.PriceChanged

/-- Python `pat in s` substring test, via `splitOn` (the orchestrator checks
`"Price changed" in action`). -/
def strContains (s pat : String) : Bool :=
  (s.splitOn pat).length != 1

/-- The summary dictionary returned by `scrape_and_update_database`
(the keys the claims are about; the failure dictionary's counters are all
zero). -/
structure ScrapeSummary where
  success : Bool
  total_scraped : Nat
  new_tickets : Nat
  updated_tickets : Nat
  deleted_tickets : Nat
  price_changes : Nat
  deriving Repr, DecidableEq

/-- Embeds `TicketJamScraper.scrape_and_update_database` after the fetch:
given the extracted candidate list, either return the failure summary
without touching the store (`if not tickets:`), or upsert every candidate,
then prune with exactly this cycle's id list. -/
def scrape_and_update_database (db : TicketDatabase)
    (tickets : List TicketInfo) (now : String) : TicketDatabase × ScrapeSummary :=
  if tickets.isEmpty then
    (db, ⟨false, 0, 0, 0, 0, 0⟩)
  else
    let step := fun (st : TicketDatabase × Nat × Nat × Nat × List String)
        (t : TicketInfo) =>
      let (db1, newc, updc, pc, ids) := st
      let (db2, is_new, action) := insert_or_update_ticket db1 t now
      let ids1 := ids ++ [t.ticket_id]
      if is_new then (db2, newc + 1, updc, pc, ids1)
      else if strContains action "Price changed" then
        (db2, newc, updc + 1, pc + 1, ids1)
      else (db2, newc, updc, pc, ids1)
    let folded := tickets.foldl step (db, 0, 0, 0, [])
    let pruned := delete_removed_tickets folded.1 folded.2.2.2.2
    (pruned.1,
     ⟨true, tickets.length, folded.2.1, folded.2.2.1, pruned.2, folded.2.2.2.1⟩)

/-! ### Concrete sample data used by witnesses and counterexamples -/

/-- A concrete active stored row used in several concrete scenarios. -/
def baseRow : TicketRow where
  ticket_id := "A"
  title := "t"
  event_name := "E"
  date := "2025/12/23"
  time := "19:00"
  venue := "V"
  location := "L"
  price := "1,000円"
  quantity := "2枚"
  seat_info := ""
  description := "D"
  days_remaining := "残り3日"
  is_instant_buy := false
  url := "https://ticketjam.jp/ticket/live_domestic/A"
  first_seen := "T0"
  last_seen := "T0"
  status := "active"
  posted := false
  created_at := "T0"
  updated_at := "T0"

/-- A store holding one active ticket, for the C1 counterexample. -/
def exampleActiveDb : TicketDatabase :=
  ⟨[baseRow], [⟨"A", "1,000円", "T0"⟩]⟩

/-- Stored row for the C2 scenario: active, already posted, venue `Hall A`. -/
def c2row : TicketRow :=
  { baseRow with ticket_id := "X", venue := "Hall A", posted := true }

/-- Store for the C2 scenario. -/
def c2db : TicketDatabase := ⟨[c2row], [⟨"X", "1,000円", "T0"⟩]⟩

/-- Candidate for the C2 scenario: same id and price, different venue. -/
def c2cand : TicketInfo :=
  { ticket_id := "X", title := "t", event_name := "E", description := "D",
    price := "1,000円", venue := "Hall B", url := "u" }

/-- Candidate for the C3 scenario, price `1,000円`. -/
def c3cand : TicketInfo :=
  { ticket_id := "X", title := "t", event_name := "E", description := "D",
    price := "1,000円", url := "u" }

/-- The same listing rescraped at price `1,200円`. -/
def c3cand2 : TicketInfo := { c3cand with price := "1,200円" }

/-- Store after inserting `c3cand` into an empty store at time `T1`. -/
def c3db1 : TicketDatabase := (insert_or_update_ticket ⟨[], []⟩ c3cand "T1").1

/-- Store after marking ticket `X` as posted at time `T2`. -/
def c3db2 : TicketDatabase := (mark_tickets_as_posted c3db1 ["X"] "T2").1

/-- The stored row of ticket `X` inside `c3db2`. -/
def c3row : TicketRow :=
  { rowFromTicket c3cand "T1" with posted := true, updated_at := "T2" }

/-- Store with active ids `A`, `B`, `C`, for the C5 prune scenario. -/
def c5db : TicketDatabase :=
  ⟨[baseRow, { baseRow with ticket_id := "B" }, { baseRow with ticket_id := "C" }], []⟩

/-- Store with one unposted and one posted row, for the C7 scenario. -/
def c7db : TicketDatabase :=
  ⟨[baseRow, { baseRow with ticket_id := "B", posted := true }], []⟩

/-- A candidate with a price but no event name and no description. -/
def c9cand : TicketInfo := { price := "100円" }

/-! ### Helper lemmas -/

/-- Splitting never produces the empty list of segments. -/
theorem splitChar_ne_nil (cs : List Char) : splitChar cs ≠ [] := by
  induction cs with
  | nil => simp [splitChar]
  | cons c rest ih =>
    rw [splitChar]
    split
    · simp
    · split
      · simp
      · simp

/-- Stripping code: appending a trailing slash does not change the last URL
segment. -/
theorem lastUrlSegment_append_slash (u : String) :
    lastUrlSegment (u ++ "/") = lastUrlSegment u := by
  unfold lastUrlSegment
  have hdata : (u ++ "/").toList = u.toList ++ ['/'] := by
    simp [String.toList]
  rw [hdata, List.reverse_append]
  simp only [List.reverse_cons, List.reverse_nil, List.nil_append,
    List.singleton_append]
  rw [List.dropWhile_cons_of_pos (by decide)]
  have hne := splitChar_ne_nil ((u.toList.reverse.dropWhile (fun c => c == '/')).reverse)
  obtain ⟨seg, hseg⟩ := Option.isSome_iff_exists.mp (List.getLast?_isSome.mpr hne)
  rw [hseg]

/-- Unfolding of `ticketIdFromUrl`: an empty URL keeps the empty id,
otherwise the id is the last URL segment. -/
theorem ticketIdFromUrl_eq (u : String) :
    ticketIdFromUrl u = if u = "" then "" else lastUrlSegment u := by
  unfold ticketIdFromUrl TicketInfo.generateTicketId
  by_cases h : u = ""
  · subst h; simp
  · simp [h]

/-- A string with `"/"` appended is never empty. -/
theorem append_slash_ne_empty (u : String) : u ++ "/" ≠ "" := by
  intro h
  have := congrArg String.length h
  simp only [String.length_append] at this
  have h1 : ("/" : String).length = 1 := rfl
  have h2 : ("" : String).length = 0 := rfl
  omega

/-- The price-changed action string is classified as `PriceChanged`. -/
theorem priceChangedAction_kind (p q : String) :
    actionKind ("Price changed from " ++ p ++ " to " ++ q)
      = UpsertAction.PriceChanged := by
  have hlen : ∀ s : String,
      ("Price changed from " ++ p ++ " to " ++ q).length = s.length →
      19 + p.length + 4 + q.length = s.length := by
    intro s hs
    simpa [String.length_append] using hs
  unfold actionKind
  rw [if_neg, if_neg]
  · intro h
    have := hlen _ (congrArg String.length h)
    have h17 : ("Updated last_seen" : String).length = 17 := rfl
    omega
  · intro h
    have := hlen _ (congrArg String.length h)
    have h16 : ("New ticket added" : String).length = 16 := rfl
    omega

/-- Lookup by ticket id commutes with a map that rewrites exactly the rows
with that id, provided the rewrite preserves the id. -/
theorem find?_map_update (l : List TicketRow) (tid : String)
    (g : TicketRow → TicketRow) (hg : ∀ r, (g r).ticket_id = r.ticket_id) :
    (l.map (fun r => if r.ticket_id == tid then g r else r)).find?
        (fun r => r.ticket_id == tid)
      = Option.map g (l.find? (fun r => r.ticket_id == tid)) := by
  induction l with
  | nil => rfl
  | cons a l ih =>
    by_cases h : (a.ticket_id == tid) = true
    · have h2 : ((g a).ticket_id == tid) = true := by rw [hg]; exact h
      rw [List.map_cons, if_pos h, List.find?_cons, List.find?_cons, h2, h]
      rfl
    · have hf : (a.ticket_id == tid) = false := by simpa using h
      rw [List.map_cons, if_neg h, List.find?_cons, List.find?_cons, hf]
      exact ih

/-- After any upsert of candidate `t`, a row carrying the id and the price
of `t` is found in the store. -/
theorem find?_after_upsert (db : TicketDatabase) (t : TicketInfo) (now : String) :
    ∃ r, (insert_or_update_ticket db t now).1.tickets.find?
        (fun r => r.ticket_id == t.ticket_id) = some r ∧ r.price = t.price := by
  cases h : db.tickets.find? (fun r => r.ticket_id == t.ticket_id) with
  | none =>
    refine ⟨rowFromTicket t now, ?_, rfl⟩
    simp only [insert_or_update_ticket, h]
    rw [List.find?_append, h]
    simp [rowFromTicket]
  | some r0 =>
    refine ⟨updateRowFromTicket r0 t now (r0.price != t.price), ?_, rfl⟩
    simp only [insert_or_update_ticket, h]
    rw [find?_map_update db.tickets t.ticket_id
      (fun r => updateRowFromTicket r t now (r0.price != t.price)) (fun r => rfl), h]
    rfl

/-- The deduplication loop keeps, for each id, exactly the first candidate
carrying that id that is not already in the seen set. -/
theorem dedupAux_filter (i : String) :
    ∀ (ts : List TicketInfo) (seen : List String),
      (dedupAux ts seen).filter (fun t => t.ticket_id == i)
        = if seen.contains i then []
          else (ts.filter (fun t => t.ticket_id == i)).take 1 := by
  intro ts
  induction ts with
  | nil =>
    intro seen
    cases h : seen.contains i <;> simp [dedupAux, h]
  | cons t rest ih =>
    intro seen
    by_cases hs : seen.contains t.ticket_id = true
    · rw [dedupAux, if_pos hs, ih seen]
      by_cases hi : seen.contains i = true
      · rw [if_pos hi, if_pos hi]
      · have hti : (t.ticket_id == i) = false := by
          cases htb : (t.ticket_id == i) with
          | true =>
            have : t.ticket_id = i := by simpa using htb
            exact absurd (this ▸ hs) hi
          | false => rfl
        rw [if_neg hi, if_neg hi, List.filter_cons_of_neg (by simp [hti])]
    · rw [dedupAux, if_neg hs]
      by_cases hti : (t.ticket_id == i) = true
      · have htieq : t.ticket_id = i := by simpa using hti
        rw [List.filter_cons, if_pos hti, ih (t.ticket_id :: seen)]
        have hcontains : (t.ticket_id :: seen).contains i = true := by
          simp [List.contains_cons, htieq]
        rw [if_pos hcontains]
        have hsi : seen.contains i = false := by
          rw [← htieq]; simpa using hs
        rw [if_neg (by rw [hsi]; simp), List.filter_cons, if_pos hti]
        rfl
      · have htif : (t.ticket_id == i) = false := by simpa using hti
        have hne : (i == t.ticket_id) = false := by
          cases hb : (i == t.ticket_id) with
          | true =>
            have : i = t.ticket_id := by simpa using hb
            exact absurd (by simp [this]) hti
          | false => rfl
        rw [List.filter_cons_of_neg (by simp [htif]),
          List.filter_cons_of_neg (by simp [htif]),
          ih (t.ticket_id :: seen), List.contains_cons, hne, Bool.false_or]

/-! ### Claim theorems -/

/-- C1 (counterexample): the claim says a cycle whose extraction yields zero
candidates still proceeds to pruning and deletes every active record.  On a
concrete store with one active record, a zero-candidate cycle returns the
store unchanged (the active record survives), reports failure, and deletes
nothing. -/
theorem c1_zero_candidates_counterexample :
    (scrape_and_update_database exampleActiveDb [] "T1").1 = exampleActiveDb
    ∧ (scrape_and_update_database exampleActiveDb [] "T1").2.success = false
    ∧ (scrape_and_update_database exampleActiveDb [] "T1").2.deleted_tickets = 0
    ∧ exampleActiveDb.tickets.filter (fun r => r.status == "active") ≠ [] := by
  decide

/-- C1 (amended): a cycle whose extraction yields zero candidates aborts
early with the failure summary and makes no store mutation — pruning never
runs, so active records are retained.  Only the prune primitive itself,
when invoked directly with an empty id list, deletes every active record. -/
theorem c1_zero_candidates_abort (db : TicketDatabase) (now : String) :
    scrape_and_update_database db [] now = (db, ⟨false, 0, 0, 0, 0, 0⟩)
    ∧ (delete_removed_tickets db []).1.tickets
        = db.tickets.filter (fun r => !(r.status == "active")) := by
  constructor
  · simp [scrape_and_update_database]
  · simp [delete_removed_tickets]

/-- C4: upserting a candidate whose `ticket_id` is absent inserts a new row
with `first_seen = last_seen = now` and `posted = false`, appends exactly
one price-history entry at the candidate's price, and returns
`(true, Inserted)` (action string `"New ticket added"`). -/
theorem c4_insert_new (db : TicketDatabase) (t : TicketInfo) (now : String)
    (habs : db.tickets.find? (fun r => r.ticket_id == t.ticket_id) = none) :
    insert_or_update_ticket db t now
      = (⟨db.tickets ++ [rowFromTicket t now],
          db.price_history ++ [⟨t.ticket_id, t.price, now⟩]⟩,
         true, "New ticket added")
    ∧ (rowFromTicket t now).first_seen = now
    ∧ (rowFromTicket t now).last_seen = now
    ∧ (rowFromTicket t now).posted = false
    ∧ actionKind "New ticket added" = UpsertAction.Inserted := by
  refine ⟨?_, rfl, rfl, rfl, by decide⟩
  simp only [insert_or_update_ticket, habs]

/-- C4 witness: inserting a concrete candidate into the empty store. -/
theorem c4_insert_new_witness :
    insert_or_update_ticket ⟨[], []⟩ c3cand "T1"
      = (⟨[] ++ [rowFromTicket c3cand "T1"],
          [] ++ [⟨c3cand.ticket_id, c3cand.price, "T1"⟩]⟩,
         true, "New ticket added")
    ∧ (rowFromTicket c3cand "T1").first_seen = "T1"
    ∧ (rowFromTicket c3cand "T1").last_seen = "T1"
    ∧ (rowFromTicket c3cand "T1").posted = false
    ∧ actionKind "New ticket added" = UpsertAction.Inserted :=
  c4_insert_new ⟨[], []⟩ c3cand "T1" rfl

/-- C5: pruning keeps exactly the rows that are not
(active ∧ id missing from the snapshot); the price-history table is
untouched; the returned count is the number of deleted rows; and with an
empty snapshot every active row is deleted. -/
theorem c5_prune_exact (db : TicketDatabase) (ids : List String) :
    (delete_removed_tickets db ids).1.tickets
        = db.tickets.filter
            (fun r => !(r.status == "active" && !(ids.contains r.ticket_id)))
    ∧ (delete_removed_tickets db ids).1.price_history = db.price_history
    ∧ (delete_removed_tickets db ids).2
        = db.tickets.length - ((delete_removed_tickets db ids).1.tickets).length
    ∧ (ids = [] →
        (delete_removed_tickets db ids).1.tickets
          = db.tickets.filter (fun r => !(r.status == "active"))) := by
  cases ids with
  | nil =>
    refine ⟨?_, rfl, rfl, fun _ => rfl⟩
    simp only [delete_removed_tickets, List.isEmpty_nil, if_true]
    apply List.filter_congr
    intro r _
    simp
  | cons a as =>
    exact ⟨rfl, rfl, rfl, fun h => by cases h⟩

/-- C5 witness: store holds active ids `A`, `B`, `C`; pruning with snapshot
`{A, C}` deletes only `B`; pruning with the empty snapshot deletes all. -/
theorem c5_prune_exact_witness :
    (delete_removed_tickets c5db ["A", "C"]).1.tickets
        = [baseRow, { baseRow with ticket_id := "C" }]
    ∧ (delete_removed_tickets c5db []).1.tickets = [] := by
  have h1 := (c5_prune_exact c5db ["A", "C"]).1
  have h2 := (c5_prune_exact c5db []).2.2.2 rfl
  rw [h1, h2]
  constructor
  · decide
  · decide

/-- C7: an invalid status filter (anything other than `active` or `sold`)
is reported immediately as an input error without querying the store; a
valid filter returns exactly the rows with `posted = false` and that
status; no filter returns exactly the rows with `posted = false`. -/
theorem c7_unposted_filter (db : TicketDatabase) (f : String) :
    (¬(f = "active" ∨ f = "sold") →
      get_unposted_tickets db (some f)
        = Except.error ("Invalid status filter: " ++ f))
    ∧ ((f = "active" ∨ f = "sold") →
      get_unposted_tickets db (some f)
        = Except.ok (db.tickets.filter (fun r => !r.posted && r.status == f)))
    ∧ get_unposted_tickets db none
        = Except.ok (db.tickets.filter (fun r => !r.posted)) := by
  refine ⟨fun h => ?_, fun h => ?_, rfl⟩
  · simp only [get_unposted_tickets, if_pos h]
  · simp only [get_unposted_tickets, if_neg (not_not_intro h)]

/-- C7 witness: a bogus filter is rejected with the error message; the
`active` filter and the absent filter return the unposted rows of a
concrete store. -/
theorem c7_unposted_filter_witness :
    get_unposted_tickets c7db (some "bogus")
      = Except.error "Invalid status filter: bogus"
    ∧ get_unposted_tickets c7db (some "active") = Except.ok [baseRow]
    ∧ get_unposted_tickets c7db none = Except.ok [baseRow] := by
  have h1 := (c7_unposted_filter c7db "bogus").1 (by decide)
  have h2 := (c7_unposted_filter c7db "active").2.1 (Or.inl rfl)
  have h3 := (c7_unposted_filter c7db "active").2.2
  rw [h1, h2, h3]
  refine ⟨rfl, congrArg Except.ok (by decide), congrArg Except.ok (by decide)⟩

/-- C8: the ticket id derived from a resolved URL is invariant under a
trailing slash, and on the documented URL format it is the final path
segment. -/
theorem c8_trailing_slash (u : String) :
    ticketIdFromUrl u = ticketIdFromUrl (u ++ "/")
    ∧ ticketIdFromUrl "https://ticketjam.jp/ticket/live_domestic/7938150-2511"
        = "7938150-2511" := by
  constructor
  · rw [ticketIdFromUrl_eq, ticketIdFromUrl_eq]
    by_cases h : u = ""
    · subst h
      rw [if_pos rfl, if_neg (append_slash_ne_empty "")]
      decide
    · rw [if_neg h, if_neg (append_slash_ne_empty u), lastUrlSegment_append_slash]
  · decide

/-- C9: a candidate survives the validation pass iff it has a non-empty
price and a non-empty event name or description; in particular a candidate
with a price but neither of the two is rejected. -/
theorem c9_validation (ts : List TicketInfo) (t : TicketInfo) :
    (t ∈ filterValid ts ↔
      t ∈ ts ∧ (t.price ≠ "" ∧ (t.event_name ≠ "" ∨ t.description ≠ "")))
    ∧ (t.price ≠ "" → t.event_name = "" → t.description = "" →
        _is_valid_ticket t = false) := by
  constructor
  · simp [filterValid, List.mem_filter, _is_valid_ticket, and_assoc]
  · intro _ he hd
    simp [_is_valid_ticket, he, hd]

/-- C9 witness: a candidate with price `100円` but empty event name and
empty description is dropped. -/
theorem c9_validation_witness :
    _is_valid_ticket c9cand = false
    ∧ ¬(c9cand ∈ filterValid [c9cand]) := by
  have h2 := (c9_validation [c9cand] c9cand).2 (by decide) rfl rfl
  have h1 := (c9_validation [c9cand] c9cand).1
  refine ⟨h2, fun hmem => ?_⟩
  have := (h1.mp hmem).2.2
  simp [c9cand] at this

/-- C10: a candidate without a resolved URL keeps the empty string as its
ticket id, and for any id the deduplication pass keeps exactly the first
candidate in document order carrying that id — later duplicates (in
particular all later URL-less candidates) are dropped. -/
theorem c10_urlless_collapse :
    ticketIdFromUrl "" = ""
    ∧ ∀ (ts : List TicketInfo) (i : String),
        (dedupTickets ts).filter (fun t => t.ticket_id == i)
          = (ts.filter (fun t => t.ticket_id == i)).take 1 := by
  refine ⟨rfl, fun ts i => ?_⟩
  have h := dedupAux_filter i ts []
  simpa [dedupTickets] using h

/-- C2 (counterexample): the claim says an equal-price upsert updates
`last_seen` only, with no other stored field changing.  On a concrete
store, upserting a candidate with the same id and price but a different
venue rewrites the stored venue from `Hall A` to `Hall B`, while still
returning `(false, "Updated last_seen")`. -/
theorem c2_touch_counterexample :
    (insert_or_update_ticket c2db c2cand "T1").1.tickets.map TicketRow.venue
        = ["Hall B"]
    ∧ c2db.tickets.map TicketRow.venue = ["Hall A"]
    ∧ c2cand.price = "1,000円"
    ∧ c2db.tickets.map TicketRow.price = ["1,000円"]
    ∧ (insert_or_update_ticket c2db c2cand "T1").2 = (false, "Updated last_seen") := by
  decide

/-- C2 (amended): an equal-price upsert overwrites every mutable column
from the candidate (and bumps `last_seen` and `updated_at`), appends no
price-history entry, leaves `posted` unchanged, and returns
`(false, Touched)`; upserting the same candidate a second time again
returns `(false, Touched)` and appends no history entry. -/
theorem c2_touch_behaviour (db : TicketDatabase) (t : TicketInfo)
    (now now2 : String) (r0 : TicketRow)
    (hfind : db.tickets.find? (fun r => r.ticket_id == t.ticket_id) = some r0)
    (hprice : r0.price = t.price) :
    insert_or_update_ticket db t now
      = (⟨db.tickets.map (fun r =>
            if r.ticket_id == t.ticket_id then updateRowFromTicket r t now false
            else r),
          db.price_history⟩, false, "Updated last_seen")
    ∧ (updateRowFromTicket r0 t now false).posted = r0.posted
    ∧ (updateRowFromTicket r0 t now false).last_seen = now
    ∧ actionKind "Updated last_seen" = UpsertAction.Touched
    ∧ (insert_or_update_ticket (insert_or_update_ticket db t now).1 t now2).2
        = (false, "Updated last_seen")
    ∧ (insert_or_update_ticket (insert_or_update_ticket db t now).1 t now2).1.price_history
        = (insert_or_update_ticket db t now).1.price_history := by
  have key : ∀ (d : TicketDatabase) (nw : String) (r : TicketRow),
      d.tickets.find? (fun r2 => r2.ticket_id == t.ticket_id) = some r →
      r.price = t.price →
      insert_or_update_ticket d t nw
        = (⟨d.tickets.map (fun r2 =>
              if r2.ticket_id == t.ticket_id then updateRowFromTicket r2 t nw false
              else r2),
            d.price_history⟩, false, "Updated last_seen") := by
    intro d nw r hf hp
    have hpc : (r.price != t.price) = false := by simp [hp]
    simp only [insert_or_update_ticket, hf, hpc, Bool.false_eq_true, if_false]
  have hmain := key db now r0 hfind hprice
  obtain ⟨r1, hfind1, hprice1⟩ := find?_after_upsert db t now
  have hsecond := key (insert_or_update_ticket db t now).1 now2 r1 hfind1 hprice1
  exact ⟨hmain, rfl, rfl, by decide, by rw [hsecond], by rw [hsecond]⟩

/-- C2 witness: the amended behaviour evaluated on the concrete C2
scenario, including the second upsert of the same candidate. -/
theorem c2_touch_behaviour_witness :
    insert_or_update_ticket c2db c2cand "T1"
      = (⟨c2db.tickets.map (fun r =>
            if r.ticket_id == c2cand.ticket_id then
              updateRowFromTicket r c2cand "T1" false
            else r),
          c2db.price_history⟩, false, "Updated last_seen")
    ∧ (updateRowFromTicket c2row c2cand "T1" false).posted = c2row.posted
    ∧ (insert_or_update_ticket (insert_or_update_ticket c2db c2cand "T1").1
          c2cand "T2").2 = (false, "Updated last_seen")
    ∧ (insert_or_update_ticket (insert_or_update_ticket c2db c2cand "T1").1
          c2cand "T2").1.price_history
        = (insert_or_update_ticket c2db c2cand "T1").1.price_history := by
  have h := c2_touch_behaviour c2db c2cand "T1" "T2" c2row (by decide) (by decide)
  exact ⟨h.1, h.2.1, h.2.2.2.2.1, h.2.2.2.2.2⟩

/-- C3: an upsert whose candidate price differs from the stored price
appends exactly one history entry at the candidate's price, overwrites the
mutable columns from the candidate, sets `posted = false` on the matched
row, and returns `(false, PriceChanged)` (action string
`"Price changed from <old> to <new>"`). -/
theorem c3_price_change (db : TicketDatabase) (t : TicketInfo) (now : String)
    (r0 : TicketRow)
    (hfind : db.tickets.find? (fun r => r.ticket_id == t.ticket_id) = some r0)
    (hprice : r0.price ≠ t.price) :
    insert_or_update_ticket db t now
      = (⟨db.tickets.map (fun r =>
            if r.ticket_id == t.ticket_id then updateRowFromTicket r t now true
            else r),
          db.price_history ++ [⟨t.ticket_id, t.price, now⟩]⟩,
         false, "Price changed from " ++ r0.price ++ " to " ++ t.price)
    ∧ (updateRowFromTicket r0 t now true).posted = false
    ∧ (updateRowFromTicket r0 t now true).price = t.price
    ∧ actionKind ("Price changed from " ++ r0.price ++ " to " ++ t.price)
        = UpsertAction.PriceChanged := by
  have hpc : (r0.price != t.price) = true := by simp [hprice]
  refine ⟨?_, rfl, rfl, priceChangedAction_kind r0.price t.price⟩
  simp only [insert_or_update_ticket, hfind, hpc, if_true]

/-- C3 witness: the §8 scenario — insert at `1,000円`, mark posted, rescrape
at `1,200円`: the row is unposted again, a second history entry at
`1,200円` exists, and the price-changed action is returned. -/
theorem c3_price_change_witness :
    (insert_or_update_ticket c3db2 c3cand2 "T3").1.price_history.map
        PriceHistoryRow.price = ["1,000円", "1,200円"]
    ∧ (insert_or_update_ticket c3db2 c3cand2 "T3").1.tickets.map
        TicketRow.posted = [false]
    ∧ c3db2.tickets.map TicketRow.posted = [true]
    ∧ (insert_or_update_ticket c3db2 c3cand2 "T3").2
        = (false, "Price changed from 1,000円 to 1,200円") := by
  have h := c3_price_change c3db2 c3cand2 "T3" c3row (by decide) (by decide)
  refine ⟨?_, ?_, by decide, ?_⟩
  · rw [h.1]; decide
  · rw [h.1]; decide
  · rw [h.1]; decide

/-- C6: price-change rendering.  With at most one history entry the current
price is shown unannotated with the `unchanged` direction (`"default"`).
With a prior entry, the comparison is numeric after stripping separators
and the currency unit: a strictly greater current price renders the 📈
annotation with the positive delta and direction `"increase"`; a strictly
smaller one renders the 📉 annotation with the delta and `"decrease"`; if
either price fails to parse, the output degrades to the plain
current/previous string with direction `"default"` and no delta. -/
theorem c6_price_change_direction (p prev : String) (h : List String) :
    (h.length ≤ 1 → formatPriceChange p h = (p, "default"))
    ∧ (∀ cv pv : Int, 2 ≤ h.length → h.getD (h.length - 2) "" = prev →
        pyInt (stripPriceChars p) = some cv →
        pyInt (stripPriceChars prev) = some pv → pv < cv →
        formatPriceChange p h
          = (p ++ " 📈 (+" ++ commaFmt (cv - pv).toNat ++ "円)\n~~" ++ prev ++ "~~",
             "increase"))
    ∧ (∀ cv pv : Int, 2 ≤ h.length → h.getD (h.length - 2) "" = prev →
        pyInt (stripPriceChars p) = some cv →
        pyInt (stripPriceChars prev) = some pv → cv < pv →
        formatPriceChange p h
          = (p ++ " 📉 (-" ++ commaFmt (pv - cv).toNat ++ "円)\n~~" ++ prev ++ "~~",
             "decrease"))
    ∧ (2 ≤ h.length → h.getD (h.length - 2) "" = prev → prev ≠ p →
        (pyInt (stripPriceChars p) = none ∨ pyInt (stripPriceChars prev) = none) →
        formatPriceChange p h = (p ++ "\n前回: " ++ prev, "default")) := by
  refine ⟨fun hle => ?_, fun cv pv hlen hgetD hcv hpv hlt => ?_,
    fun cv pv hlen hgetD hcv hpv hlt => ?_, fun hlen hgetD hne hpar => ?_⟩
  · unfold formatPriceChange format_price_change_info price_color_hint
    rw [if_pos hle, if_neg (by omega)]
  · have hne : ¬(prev = p) := by
      intro he
      rw [he, hcv] at hpv
      injection hpv with hh
      omega
    unfold formatPriceChange format_price_change_info price_color_hint
    rw [if_neg (by omega : ¬(h.length ≤ 1)), if_pos (by omega : h.length > 1),
      hgetD, if_neg hne]
    simp only [hcv, hpv]
    rw [if_pos hlt, if_pos hlt]
  · have hne : ¬(prev = p) := by
      intro he
      rw [he, hcv] at hpv
      injection hpv with hh
      omega
    unfold formatPriceChange format_price_change_info price_color_hint
    rw [if_neg (by omega : ¬(h.length ≤ 1)), if_pos (by omega : h.length > 1),
      hgetD, if_neg hne]
    simp only [hcv, hpv]
    rw [if_neg (by omega : ¬(pv < cv)), if_neg (by omega : ¬(pv < cv)),
      if_pos hlt]
  · unfold formatPriceChange format_price_change_info price_color_hint
    rw [if_neg (by omega : ¬(h.length ≤ 1)), if_pos (by omega : h.length > 1),
      hgetD, if_neg hne]
    rcases hpar with hnc | hnp
    · rw [hnc]
    · rw [hnp]
      cases hc : pyInt (stripPriceChars p) <;> rfl

/-- C6 witness: the §8 direction-classification examples plus a
non-numeric fallback. -/
theorem c6_price_change_direction_witness :
    formatPriceChange "1,500円" ["1,000円", "1,500円"]
      = ("1,500円 📈 (+500円)\n~~1,000円~~", "increase")
    ∧ formatPriceChange "1,000円" ["1,500円", "1,000円"]
      = ("1,000円 📉 (-500円)\n~~1,500円~~", "decrease")
    ∧ formatPriceChange "1,000円" ["1,000円"] = ("1,000円", "default")
    ∧ formatPriceChange "abc" ["xyz", "def"] = ("abc\n前回: xyz", "default") := by
  have h1 := (c6_price_change_direction "1,500円" "1,000円"
    ["1,000円", "1,500円"]).2.1 1500 1000 (by decide) (by decide) (by decide)
    (by decide) (by decide)
  have h2 := (c6_price_change_direction "1,000円" "1,500円"
    ["1,500円", "1,000円"]).2.2.1 1000 1500 (by decide) (by decide) (by decide)
    (by decide) (by decide)
  have h3 := (c6_price_change_direction "1,000円" "x" ["1,000円"]).1 (by decide)
  have h4 := (c6_price_change_direction "abc" "xyz" ["xyz", "def"]).2.2.2
    (by decide) (by decide) (by decide) (Or.inl (by decide))
  refine ⟨?_, ?_, h3, ?_⟩
  · rw [h1]; rfl
  · rw [h2]; rfl
  · rw [h4]; rfl

end ShogaSuto
